import Mathlib

/-!
Verification of the CHIP-8 interpreter core (`src/main.rs`).

The machine state (`struct Processor`) and its operations (`new`, `load_font`,
`fetch`, `execute`, and the body of `main_loop`) are embedded shallowly:
`u8`/`u16`/`u64` fields become `Nat` (the source never wraps: `fetch` guards
the only arithmetic that could), `Vec<u8>`/`Vec<u16>` become `List Nat`, the
`BitVec` display becomes `List Bool`, and the fallible operations return
`Except String Processor` exactly where the source returns
`Result<(), String>` while mutating `self`.
-/

/-- The constant `FONT: [u8; 80]`: 16 glyphs of 5 bytes each. -/
def FONT : List Nat := [
  0xF0, 0x90, 0x90, 0x90, 0xF0,
  0x20, 0x60, 0x20, 0x20, 0x70,
  0xF0, 0x10, 0xF0, 0x80, 0xF0,
  0xF0, 0x10, 0xF0, 0x10, 0xF0,
  0x90, 0x90, 0xF0, 0x10, 0x10,
  0xF0, 0x80, 0xF0, 0x10, 0xF0,
  0xF0, 0x80, 0xF0, 0x90, 0xF0,
  0xF0, 0x10, 0x20, 0x40, 0x40,
  0xF0, 0x90, 0xF0, 0x90, 0xF0,
  0xF0, 0x90, 0xF0, 0x10, 0xF0,
  0xF0, 0x90, 0xF0, 0x90, 0x90,
  0xE0, 0x90, 0xE0, 0x90, 0xE0,
  0xF0, 0x80, 0x80, 0x80, 0xF0,
  0xE0, 0x90, 0x90, 0x90, 0xE0,
  0xF0, 0x80, 0xF0, 0x80, 0xF0,
  0xF0, 0x80, 0xF0, 0x80, 0x80]

/-- The machine state, mirroring `struct Processor` field for field. -/
structure Processor where
  instruction : Nat
  program_counter : Nat
  index : Nat
  delay_timer : Nat
  sound_timer : Nat
  stack : List Nat
  memory : List Nat
  registers : List Nat
  display : List Bool
  tick_rate : Nat
  deriving DecidableEq

/-- Mirrors `Processor::load_font`, which does
`memory[0x50..0xA0].copy_from_slice(&FONT)`: the 80 bytes at indices
`0x50..0xA0` are replaced by `FONT`, the rest of memory is untouched. -/
def Processor.load_font (p : Processor) : Processor :=
  { p with memory := p.memory.take 0x50 ++ (FONT ++ p.memory.drop 0xA0) }

/-- Mirrors `Processor::new`: the literal initial record of the source
(including `registers: vec![0, 0xF]`, a two-element vector, and
`program_counter: 0x50`), followed by `load_font`. -/
def Processor.new : Processor :=
  Processor.load_font
    { instruction := 0x0
      program_counter := 0x50
      index := 0x0
      delay_timer := 0x0
      sound_timer := 0x0
      stack := []
      memory := List.replicate 0x1000 0
      registers := [0, 0xF]
      display := List.replicate (0x40 * 0x20) false
      tick_rate := 2 }

/-- Mirrors `Processor::fetch`: guard `program_counter > memory.len() - 2`,
then `instruction = (memory[pc] << 8) | memory[pc + 1]` and `pc += 2`.
In-bounds indexing is rendered with `getD`; the guard makes the default dead
whenever `memory.length = 4096` (its length throughout the program). -/
def Processor.fetch (p : Processor) : Except String Processor :=
  if p.program_counter > p.memory.length - 2 then
    Except.error "Program counter out of bounds!"
  else
    Except.ok { p with
      instruction := p.memory.getD p.program_counter 0 <<< 8 |||
        p.memory.getD (p.program_counter + 1) 0,
      program_counter := p.program_counter + 2 }

/-- The nibble tuple computed at the top of `Processor::execute`.
In the source `>> 12 as u8` parses as `>> (12 as u8)`, so the shift
amounts are 12, 8 and 4. -/
def nibbles (instruction : Nat) : Nat × Nat × Nat × Nat :=
  ((instruction &&& 0xF000) >>> 12,
   (instruction &&& 0x0F00) >>> 8,
   (instruction &&& 0x00F0) >>> 4,
   instruction &&& 0x000F)

/-- The message of `Err(format!("Invalid instruction: {:#06X}!", instruction))`:
for a 16-bit value, `{:#06X}` is `0x` followed by four uppercase hex digits. -/
def hexDigitChar (n : Nat) : Char :=
  match n with
  | 0 => '0' | 1 => '1' | 2 => '2' | 3 => '3'
  | 4 => '4' | 5 => '5' | 6 => '6' | 7 => '7'
  | 8 => '8' | 9 => '9' | 10 => 'A' | 11 => 'B'
  | 12 => 'C' | 13 => 'D' | 14 => 'E' | _ => 'F'

/-- Four-digit zero-padded uppercase hex rendering with a `0x` prefix. -/
def formatHex16 (n : Nat) : String :=
  "0x" ++ String.mk [hexDigitChar (n / 4096 % 16), hexDigitChar (n / 256 % 16),
    hexDigitChar (n / 16 % 16), hexDigitChar (n % 16)]

/-- The full invalid-instruction error message of `Processor::execute`. -/
def invalidMsg (instruction : Nat) : String :=
  "Invalid instruction: " ++ formatHex16 instruction ++ "!"

/-- The 35 defined nibble patterns of the `match` in `Processor::execute`,
one disjunct per source arm, in source order, over the tuple
`(nibbles.0, nibbles.1, nibbles.2, nibbles.3)`. A `_` in a source pattern
simply contributes no conjunct. Rust's first-match semantics is equivalent
to this disjunction because every non-default arm has the same (empty)
body, so only membership in the pattern table matters. -/
def definedOpcode (instruction : Nat) : Bool :=
  let a := (nibbles instruction).1
  let b := (nibbles instruction).2.1
  let c := (nibbles instruction).2.2.1
  let d := (nibbles instruction).2.2.2
  (a == 0x0 && b == 0x0 && c == 0xE && d == 0x0) ||
  (a == 0x0 && b == 0x0 && c == 0xE && d == 0xE) ||
  (a == 0x0) ||
  (a == 0x1) ||
  (a == 0x2) ||
  (a == 0x3) ||
  (a == 0x4) ||
  (a == 0x5 && d == 0x0) ||
  (a == 0x6) ||
  (a == 0x7) ||
  (a == 0x8 && d == 0x0) ||
  (a == 0x8 && d == 0x1) ||
  (a == 0x8 && d == 0x2) ||
  (a == 0x8 && d == 0x3) ||
  (a == 0x8 && d == 0x4) ||
  (a == 0x8 && d == 0x5) ||
  (a == 0x8 && d == 0x6) ||
  (a == 0x8 && d == 0x7) ||
  (a == 0x8 && d == 0xE) ||
  (a == 0x9 && d == 0x0) ||
  (a == 0xA) ||
  (a == 0xB) ||
  (a == 0xC) ||
  (a == 0xD) ||
  (a == 0xE && c == 0x9 && d == 0xE) ||
  (a == 0xE && c == 0xA && d == 0x1) ||
  (a == 0xF && c == 0x0 && d == 0x7) ||
  (a == 0xF && c == 0x0 && d == 0xA) ||
  (a == 0xF && c == 0x1 && d == 0x5) ||
  (a == 0xF && c == 0x1 && d == 0x8) ||
  (a == 0xF && c == 0x1 && d == 0xE) ||
  (a == 0xF && c == 0x2 && d == 0x9) ||
  (a == 0xF && c == 0x3 && d == 0x3) ||
  (a == 0xF && c == 0x5 && d == 0x5) ||
  (a == 0xF && c == 0x6 && d == 0x5)

/-- Mirrors the `match` of `Processor::execute`. Every one of the 35
non-default arms has an empty body `{}` in the source (the bound `x`, `y`,
`n`, `kk`, `nnn` are dead) and the function then returns `Ok(())`, so the
whole match is: if the nibble tuple matches one of the 35 defined patterns
(`definedOpcode` lists them arm by arm), the state is returned unchanged;
the default arm is the invalid-instruction error. -/
def Processor.execute (p : Processor) : Except String Processor :=
  if definedOpcode p.instruction then Except.ok p
  else Except.error (invalidMsg p.instruction)

/-- One iteration of the body of `Processor::main_loop` after the timer
tick: `self.fetch()?` then `self.execute()?` (the `println!` has no effect on
the machine state). The loop contains no other state change; in particular
there is no timer-decrement logic anywhere in the source. -/
def Processor.loop_step (p : Processor) : Except String Processor :=
  match p.fetch with
  | Except.error e => Except.error e
  | Except.ok q => q.execute

/-- Runs `n` consecutive iterations of the `main_loop` body, stopping at
the first error, exactly as the source's endless `loop` would over its
first `n` timer ticks. -/
def Processor.run_ticks : Processor → Nat → Except String Processor
  | p, 0 => Except.ok p
  | p, n + 1 =>
    match p.loop_step with
    | Except.error e => Except.error e
    | Except.ok q => q.run_ticks n

/-- Initial state used to exercise the timer claim: the freshly constructed
machine with the delay timer set to 5 and PC placed at the conventional
program start 0x200, where memory is zero-filled. -/
def timerStart : Processor :=
  { Processor.new with program_counter := 0x200, delay_timer := 5 }

/-- The state after one loop iteration that fetched 0x0000: instruction 0,
PC advanced by 2, everything else untouched. -/
def zstep (s : Processor) : Processor :=
  { s with instruction := 0, program_counter := s.program_counter + 2 }

theorem FONT_length : FONT.length = 80 := rfl

theorem font_bytes : ∀ b ∈ FONT, b < 256 := by decide

/-- The memory produced by `Processor::new`: 0x50 zero bytes, the font
table, then zeros up to 4096. -/
theorem new_memory_eq :
    Processor.new.memory =
      List.replicate 0x50 0 ++ (FONT ++ List.replicate 0xF60 0) := by
  show (List.replicate 0x1000 (0 : Nat)).take 0x50 ++
      (FONT ++ (List.replicate 0x1000 (0 : Nat)).drop 0xA0) = _
  have h1 : List.replicate 0x1000 (0 : Nat) =
      List.replicate 0x50 0 ++ List.replicate 0xFB0 0 := by
    rw [List.append_replicate_replicate]
  have h2 : List.replicate 0x1000 (0 : Nat) =
      List.replicate 0xA0 0 ++ List.replicate 0xF60 0 := by
    rw [List.append_replicate_replicate]
  have ht : (List.replicate 0x1000 (0 : Nat)).take 0x50 = List.replicate 0x50 0 := by
    rw [h1]
    exact List.take_left' (by simp)
  have hd : (List.replicate 0x1000 (0 : Nat)).drop 0xA0 = List.replicate 0xF60 0 := by
    rw [h2]
    exact List.drop_left' (by simp)
  rw [ht, hd]

theorem new_memory_length : Processor.new.memory.length = 4096 := by
  rw [new_memory_eq, List.length_append, List.length_append, List.length_replicate,
    List.length_replicate, FONT_length]

theorem new_memory_bytes : ∀ b ∈ Processor.new.memory, b < 256 := by
  rw [new_memory_eq]
  intro b hb
  rcases List.mem_append.1 hb with h | h
  · rw [List.eq_of_mem_replicate h]
    norm_num
  · rcases List.mem_append.1 h with h | h
    · exact font_bytes b h
    · rw [List.eq_of_mem_replicate h]
      norm_num

theorem new_memory_getElem_font (i : Nat) (hi : i < 80) :
    Processor.new.memory[0x50 + i]? = FONT[i]? := by
  rw [new_memory_eq]
  rw [List.getElem?_append_right (by simp)]
  simp only [List.length_replicate]
  rw [Nat.add_sub_cancel_left]
  exact List.getElem?_append_left (by rw [FONT_length]; exact hi)

theorem new_memory_getElem_zero (j : Nat) (hj : j < 4096)
    (hout : j < 0x50 ∨ 0xA0 ≤ j) :
    Processor.new.memory[j]? = some 0 := by
  rw [new_memory_eq]
  rcases hout with h | h
  · rw [List.getElem?_append_left (by simpa using h)]
    exact List.getElem?_replicate_of_lt h
  · rw [List.getElem?_append_right (by simp; omega)]
    simp only [List.length_replicate]
    rw [List.getElem?_append_right (by rw [FONT_length]; omega)]
    rw [FONT_length]
    exact List.getElem?_replicate_of_lt (by omega)

theorem new_memory_getD_zero (j : Nat) (hj : 0xA0 ≤ j) :
    Processor.new.memory.getD j 0 = 0 := by
  rw [List.getD_eq_getElem?_getD]
  by_cases h : j < 4096
  · rw [new_memory_getElem_zero j h (Or.inr hj)]
    rfl
  · rw [List.getElem?_eq_none (by rw [new_memory_length]; omega)]
    rfl

/-- General description of `fetch` on a 4096-byte, byte-valued memory:
below the bound it combines the two bytes at PC big-endian and advances PC
by 2; above it, it fails. -/
theorem fetch_spec (p : Processor)
    (hlen : p.memory.length = 4096) (hbytes : ∀ b ∈ p.memory, b < 256) :
    p.fetch = if p.program_counter ≤ 4094 then
        Except.ok { p with
          instruction := 256 * p.memory.getD p.program_counter 0 +
            p.memory.getD (p.program_counter + 1) 0,
          program_counter := p.program_counter + 2 }
      else Except.error "Program counter out of bounds!" := by
  have hlo : p.program_counter ≤ 4094 →
      p.memory.getD (p.program_counter + 1) 0 < 2 ^ 8 := by
    intro hpc
    have h1 : p.program_counter + 1 < p.memory.length := by omega
    rw [List.getD_eq_getElem?_getD, List.getElem?_eq_getElem h1]
    exact hbytes _ (List.getElem_mem h1)
  unfold Processor.fetch
  rw [hlen]
  by_cases hpc : p.program_counter ≤ 4094
  · rw [if_neg (by omega), if_pos hpc]
    have hor : p.memory.getD p.program_counter 0 <<< 8 |||
        p.memory.getD (p.program_counter + 1) 0 =
        256 * p.memory.getD p.program_counter 0 +
          p.memory.getD (p.program_counter + 1) 0 := by
      rw [Nat.shiftLeft_eq, Nat.mul_comm]
      exact (Nat.mul_add_lt_is_or (hlo hpc) _).symm
    rw [hor]
  · rw [if_pos (by omega), if_neg hpc]

/-- On a defined opcode, `execute` returns the state unchanged. -/
theorem execute_ok_of (p : Processor) (h : definedOpcode p.instruction = true) :
    p.execute = Except.ok p := by
  unfold Processor.execute
  simp [h]

/-- On an undefined opcode, `execute` returns the fatal error. -/
theorem execute_error_of (p : Processor) (h : definedOpcode p.instruction = false) :
    p.execute = Except.error (invalidMsg p.instruction) := by
  unfold Processor.execute
  simp [h]

/-- An `Ok` result of `execute` is always the unchanged input state. -/
theorem execute_ok_eq (p q : Processor) (h : p.execute = Except.ok q) : q = p := by
  unfold Processor.execute at h
  by_cases hd : definedOpcode p.instruction
  · rw [if_pos hd] at h
    injection h with h2
    exact h2.symm
  · rw [if_neg hd] at h
    exact absurd h (by simp)

/-- A successful `fetch` does not change either timer (nor memory,
registers, stack or display). -/
theorem fetch_ok_timers (p q : Processor) (h : p.fetch = Except.ok q) :
    q.delay_timer = p.delay_timer ∧ q.sound_timer = p.sound_timer := by
  unfold Processor.fetch at h
  by_cases hc : p.program_counter > p.memory.length - 2
  · rw [if_pos hc] at h
    exact absurd h (by simp)
  · rw [if_neg hc] at h
    injection h with h2
    rw [← h2]
    exact ⟨rfl, rfl⟩

/-- One successful iteration of the `main_loop` body leaves both timers
untouched: no code on the loop path decrements them. -/
theorem loop_step_timers (p q : Processor) (h : p.loop_step = Except.ok q) :
    q.delay_timer = p.delay_timer ∧ q.sound_timer = p.sound_timer := by
  unfold Processor.loop_step at h
  cases hf : p.fetch with
  | error e =>
    rw [hf] at h
    exact absurd h (by simp)
  | ok r =>
    rw [hf] at h
    have hq := execute_ok_eq r q h
    have ht := fetch_ok_timers p r hf
    rw [hq]
    exact ht

/-- C1: For every processor state whose memory is the program's 4096-byte
byte-valued memory, if PC is at most 4094 = memory length minus 2 then
`fetch` reads the two consecutive bytes at PC, combines them big-endian
(256 times the high byte plus the low byte) into the 16-bit current
instruction and advances PC by exactly 2; if PC exceeds 4094 then `fetch`
fails with the fatal out-of-bounds error. -/
theorem fetch_bigendian_and_bounds (p : Processor)
    (hlen : p.memory.length = 4096) (hbytes : ∀ b ∈ p.memory, b < 256) :
    p.fetch = if p.program_counter ≤ 4094 then
        Except.ok { p with
          instruction := 256 * p.memory.getD p.program_counter 0 +
            p.memory.getD (p.program_counter + 1) 0,
          program_counter := p.program_counter + 2 }
      else Except.error "Program counter out of bounds!" :=
  fetch_spec p hlen hbytes

set_option maxRecDepth 4000 in
theorem fetch_bigendian_and_bounds_witness :
    Processor.new.fetch = Except.ok { Processor.new with
        instruction := 0xF090, program_counter := 0x52 } ∧
      ({ Processor.new with program_counter := 4095 } : Processor).fetch =
        Except.error "Program counter out of bounds!" := by
  constructor
  · have h := fetch_bigendian_and_bounds Processor.new new_memory_length new_memory_bytes
    rw [if_pos (by decide)] at h
    rw [h]
    rfl
  · have h := fetch_bigendian_and_bounds { Processor.new with program_counter := 4095 }
      new_memory_length new_memory_bytes
    rw [if_neg (by decide)] at h
    exact h

/-- C2: For every state whose 16-bit instruction matches none of the 35
defined opcode patterns, `execute` returns the fatal invalid-instruction
error whose message reports the raw 16-bit value in the `{:#06X}` format of
the source; it is never treated as a silent no-op. -/
theorem execute_invalid_instruction_fatal (p : Processor)
    (h : definedOpcode p.instruction = false) :
    p.execute = Except.error (invalidMsg p.instruction) :=
  execute_error_of p h

theorem execute_invalid_instruction_fatal_witness :
    definedOpcode 0x5001 = false ∧
      ({ Processor.new with instruction := 0x5001 } : Processor).execute =
        Except.error "Invalid instruction: 0x5001!" := by
  refine ⟨by decide, ?_⟩
  rw [execute_invalid_instruction_fatal _ (by decide)]
  exact congrArg Except.error (by decide)

/-- C3: For every state whose 16-bit instruction matches one of the 35
defined opcode patterns, `execute` returns `Ok` with the entire processor
state — registers, memory, stack, program counter, index register, both
timers and the display buffer — exactly unchanged: every matched opcode
branch is a no-op. -/
theorem execute_defined_opcodes_noop (p : Processor)
    (h : definedOpcode p.instruction = true) :
    p.execute = Except.ok p :=
  execute_ok_of p h

theorem execute_defined_opcodes_noop_witness :
    definedOpcode 0x00E0 = true ∧
      ({ Processor.new with instruction := 0x00E0 } : Processor).execute =
        Except.ok { Processor.new with instruction := 0x00E0 } :=
  ⟨by decide, execute_defined_opcodes_noop _ (by decide)⟩

/-- C4: The claim that the register file has 16 zeroed entries fails on the
code: `Processor::new` writes `registers: vec![0, 0xF]`, the two-element
vector `[0x00, 0x0F]`, not sixteen zeroed registers. -/
theorem new_registers_not_sixteen :
    Processor.new.registers = [0x0, 0xF] ∧ Processor.new.registers.length ≠ 16 := by
  exact ⟨rfl, by decide⟩

/-- C5: The claim that PC starts at the load address 0x200 fails on the
code: `Processor::new` sets the program counter to 0x50, precisely the
font-storage offset at which `load_font` places `FONT`. -/
theorem new_pc_is_font_offset :
    Processor.new.program_counter = 0x50 ∧ Processor.new.program_counter ≠ 0x200 := by
  exact ⟨rfl, by decide⟩

/-- C6: The load-immediate claim fails on the code: executing 6xkk (here
0x6105, x = 1, kk = 5) is a no-op that returns the state unchanged, so V1
still holds the initial 0xF of `vec![0, 0xF]`, not 5. -/
theorem load_immediate_noop :
    ({ Processor.new with instruction := 0x6105 } : Processor).execute =
      Except.ok { Processor.new with instruction := 0x6105 } ∧
    ({ Processor.new with instruction := 0x6105 } : Processor).registers.getD 1 0 = 0xF :=
  ⟨execute_ok_of _ (by decide), by decide⟩

/-- C7: The call/return claim fails on the code: executing CALL 0x300
(0x2300) from PC = 0x202 is a no-op — nothing is pushed on the call stack
and PC is left at 0x202 rather than 0x300, so there is no return address a
RET could pop. -/
theorem call_ret_noop :
    ({ Processor.new with program_counter := 0x202, instruction := 0x2300 } : Processor).execute =
      Except.ok { Processor.new with program_counter := 0x202, instruction := 0x2300 } ∧
    ({ Processor.new with program_counter := 0x202, instruction := 0x2300 } : Processor).stack = [] ∧
    ({ Processor.new with program_counter := 0x202, instruction := 0x2300 } : Processor).program_counter = 0x202 :=
  ⟨execute_ok_of _ (by decide), rfl, rfl⟩

/-- C8: The add-with-carry claim fails on the code: with Vx = 0xFF and
Vy = 0x01, executing 8xy4 (here 0x8014) is a no-op that returns the state
unchanged — Vx stays 0xFF instead of wrapping to 0x00 and no flag is
written. -/
theorem add_with_carry_noop :
    ({ Processor.new with registers := [0xFF, 0x01], instruction := 0x8014 } : Processor).execute =
      Except.ok { Processor.new with registers := [0xFF, 0x01], instruction := 0x8014 } ∧
    ({ Processor.new with registers := [0xFF, 0x01], instruction := 0x8014 } : Processor).registers.getD 0 0 = 0xFF :=
  ⟨execute_ok_of _ (by decide), by decide⟩

/-- C9: The timer-decay claim fails on the code: no code on the `main_loop`
path ever decrements a timer, so after any number of successful loop
iterations both timers still hold their initial values — with delay timer 5,
five ticks leave it at 5, not 0. -/
theorem timers_never_decremented (p q : Processor) (n : Nat)
    (h : p.run_ticks n = Except.ok q) :
    q.delay_timer = p.delay_timer ∧ q.sound_timer = p.sound_timer := by
  revert h
  induction n generalizing p with
  | zero =>
    intro h
    unfold Processor.run_ticks at h
    injection h with h2
    rw [← h2]
    exact ⟨rfl, rfl⟩
  | succ n ih =>
    intro h
    unfold Processor.run_ticks at h
    cases hs : p.loop_step with
    | error e =>
      rw [hs] at h
      exact absurd h (by simp)
    | ok r =>
      rw [hs] at h
      have h1 := loop_step_timers p r hs
      have h2 := ih r h
      exact ⟨h2.1.trans h1.1, h2.2.trans h1.2⟩

/-- On a state sharing the fresh machine's memory, with PC in the zero
region at or above 0xA0 and within fetch bounds, one loop iteration fetches
the instruction 0x0000 (a defined no-op) and only advances PC by 2. -/
theorem loop_step_zero (s : Processor) (hmem : s.memory = Processor.new.memory)
    (h1 : 0xA0 ≤ s.program_counter) (h2 : s.program_counter ≤ 4094) :
    s.loop_step = Except.ok (zstep s) := by
  unfold Processor.loop_step
  have hf := fetch_spec s (by rw [hmem]; exact new_memory_length)
    (by rw [hmem]; exact new_memory_bytes)
  rw [if_pos h2] at hf
  have g1 : s.memory.getD s.program_counter 0 = 0 := by
    rw [hmem]
    exact new_memory_getD_zero _ h1
  have g2 : s.memory.getD (s.program_counter + 1) 0 = 0 := by
    rw [hmem]
    exact new_memory_getD_zero _ (by omega)
  rw [g1, g2] at hf
  rw [hf]
  refine execute_ok_of _ ?_
  show definedOpcode (256 * 0 + 0) = true
  decide

/-- A successful loop iteration unfolds one step of `run_ticks`. -/
theorem run_ticks_succ_ok (p q : Processor) (n : Nat)
    (h : p.loop_step = Except.ok q) :
    p.run_ticks (n + 1) = q.run_ticks n := by
  conv_lhs => unfold Processor.run_ticks
  rw [h]

/-- Five loop iterations from `timerStart`: PC walks 0x200 to 0x20A through
the zero-filled program region and nothing else changes. -/
theorem timerStart_run_five :
    timerStart.run_ticks 5 = Except.ok
      { timerStart with instruction := 0, program_counter := 0x20A } := by
  have e1 := loop_step_zero timerStart rfl (by decide) (by decide)
  have e2 := loop_step_zero (zstep timerStart) rfl (by decide) (by decide)
  have e3 := loop_step_zero (zstep (zstep timerStart)) rfl (by decide) (by decide)
  have e4 := loop_step_zero (zstep (zstep (zstep timerStart))) rfl (by decide) (by decide)
  have e5 := loop_step_zero (zstep (zstep (zstep (zstep timerStart)))) rfl (by decide) (by decide)
  rw [run_ticks_succ_ok _ _ _ e1, run_ticks_succ_ok _ _ _ e2, run_ticks_succ_ok _ _ _ e3,
    run_ticks_succ_ok _ _ _ e4, run_ticks_succ_ok _ _ _ e5]
  rfl

theorem timers_never_decremented_witness :
    timerStart.run_ticks 5 = Except.ok
        { timerStart with instruction := 0, program_counter := 0x20A } ∧
      ({ timerStart with instruction := 0, program_counter := 0x20A } : Processor).delay_timer = 5 :=
  ⟨timerStart_run_five,
    (timers_never_decremented timerStart _ 5 timerStart_run_five).1.trans rfl⟩

/-- C10: After `Processor::new`, memory has the fixed length 4096,
`load_font` has copied the 80-byte `FONT` table bit for bit to indices
0x50 + i for i < 80, and every byte outside the font region 0x050–0x09F is
still zero. -/
theorem load_font_copies_font :
    Processor.new.memory.length = 4096 ∧
    (∀ i, i < 80 → Processor.new.memory[0x50 + i]? = FONT[i]?) ∧
    (∀ j, j < 4096 → j < 0x50 ∨ 0xA0 ≤ j → Processor.new.memory[j]? = some 0) :=
  ⟨new_memory_length,
    fun i hi => new_memory_getElem_font i hi,
    fun j hj hout => new_memory_getElem_zero j hj hout⟩

theorem load_font_copies_font_witness :
    Processor.new.memory[0x50 + 0]? = FONT[0]? ∧
      Processor.new.memory[0x200]? = some 0 :=
  ⟨load_font_copies_font.2.1 0 (by decide),
    load_font_copies_font.2.2 0x200 (by decide) (Or.inr (by decide))⟩
